import Mathlib

/-!
Shallow embedding of `src/main.py` (Disaster AI Sentinel) for checking the
natural-language specification against the code.

Conventions of the embedding:
* Python values occurring in upstream JSON records are modelled by `PyVal`;
  Python floats by `PyFloat` (a finite rational, or an infinity, or NaN).
* Instants are modelled as rational epoch seconds.
* Runtime-library primitives that the code calls but that are not part of the
  repository — `float()` applied to a string and `datetime.fromisoformat`
  (composed with the `.replace('Z', '+00:00')` the code always performs) —
  are modelled as parameters, bundled in the structure `Lib`.  Every theorem
  quantifies over them; witnesses instantiate them with concrete functions.
* A Python function that can raise an exception that its caller catches is
  modelled with `Except Unit`.
-/

namespace Sentinel

/-- A Python float: a finite value (modelled exactly as a rational), one of the
two infinities, or NaN. -/
inductive PyFloat where
  | fin (q : ℚ)
  | inf
  | ninf
  | nan
deriving DecidableEq

/-- A Python value as it can occur in an upstream JSON record: `None`, a
string, a number, or some other object (list, dict, ...). -/
inductive PyVal where
  | null
  | str (s : String)
  | num (x : PyFloat)
  | other
deriving DecidableEq

/-- Python truthiness of a `PyVal` (`bool(v)`): `None`, `""` and `0` are
falsy; infinities and NaN are truthy. -/
def pyTruthy : PyVal → Bool
  | .null => false
  | .str s => s ≠ ""
  | .num (.fin q) => q ≠ 0
  | .num _ => true
  | .other => true

/-- Python `a or b`: returns `a` when `a` is truthy, else `b`. -/
def pyOr (a b : PyVal) : PyVal :=
  if pyTruthy a then a else b

/-- Python `str(v)`, to the extent the claims need it (ids are coerced with
`str(...)`; only string-valued ids are ever inspected by a claim). -/
def pyStr : PyVal → String
  | .null => "None"
  | .str s => s
  | .num (.fin q) => toString q
  | .num .inf => "inf"
  | .num .ninf => "-inf"
  | .num .nan => "nan"
  | .other => "object"

/-- An upstream record: a JSON object, modelled as an association list from
keys to `PyVal`s (first binding of a key wins, as in a Python dict). -/
def Record := List (String × PyVal)

/-- Python `ev.get(k, d)`. -/
def pyGetD (r : Record) (k : String) (d : PyVal) : PyVal :=
  match (List.find? (fun p => p.1 == k) r) with
  | some p => p.2
  | none => d

/-- Python `ev.get(k)` (default `None`). -/
def pyGet (r : Record) (k : String) : PyVal :=
  pyGetD r k .null

/-- Runtime-library primitives the code calls, modelled as parameters:
`parseFloatStr s` is Python `float(s)` on a string (`none` = `ValueError`),
`parseIso s` is `datetime.fromisoformat(s.replace('Z', '+00:00'))` rendered
as epoch seconds, with a missing timezone defaulted to UTC
(`none` = `ValueError`). -/
structure Lib where
  parseFloatStr : String → Option PyFloat
  parseIso : String → Option ℚ

/-- Python `float(v)` on an arbitrary value: numbers coerce, strings go
through the string parser, `None` and other objects raise (`none`). -/
def pyToFloat (L : Lib) : PyVal → Option PyFloat
  | .null => none
  | .str s => L.parseFloatStr s
  | .num x => some x
  | .other => none

/-- `as` begins with `bs` (character-wise). -/
def listBegins : List Char → List Char → Bool
  | _, [] => true
  | [], _ :: _ => false
  | a :: as, b :: bs => a == b && listBegins as bs

/-- `needle` occurs as a contiguous run inside `hay`. -/
def listSub : List Char → List Char → Bool
  | [], needle => needle.isEmpty
  | a :: as, needle => listBegins (a :: as) needle || listSub as needle

/-- Python `needle in hay` on strings: substring containment. -/
def strContains (hay needle : String) : Bool :=
  listSub hay.data needle.data

/-- ASCII lowering of one character (the fragment of Python `str.lower` the
fixed match table can observe: all its needles are ASCII). -/
def charLower (c : Char) : Char :=
  if 'A' ≤ c ∧ c ≤ 'Z' then Char.ofNat (c.toNat + 32) else c

/-- Python `s.lower()`, modelled on the ASCII range. -/
def strLower (s : String) : String :=
  ⟨s.data.map charLower⟩

/-- `map_gdacs_type` (src/main.py:124-136): lowercase the title, then test a
fixed substring table in priority order; no match returns the raw title. -/
def map_gdacs_type (gdacs_title : String) : String :=
  let title := strLower gdacs_title
  if strContains title "fire" || strContains title "wildfire" then "Wildfire"
  else if strContains title "storm" || strContains title "cyclone" ||
      strContains title "hurricane" || strContains title "typhoon" then "Hurricane"
  else if strContains title "flood" then "Flood"
  else if strContains title "volcano" then "Volcano"
  else if strContains title "earthquake" then "Earthquake"
  else gdacs_title

/-- A canonical event as built by the fetch loops (src/main.py:272-278).
The timestamp is kept as epoch seconds (the code stores its ISO rendering). -/
structure Event where
  id : String
  type : String
  lat : PyFloat
  lon : PyFloat
  severity : PyVal
  timestamp : ℚ
deriving DecidableEq

/-- Latitude probe (src/main.py:233-235): `latitude`, else `lat`. -/
def probeLat (ev : Record) : PyVal :=
  let v := pyGet ev "latitude"
  if v = .null then pyGet ev "lat" else v

/-- Longitude probe (src/main.py:236-240): `longitude`, else `lon`, else
`lng`. -/
def probeLon (ev : Record) : PyVal :=
  let v := pyGet ev "longitude"
  if v = .null then
    let w := pyGet ev "lon"
    if w = .null then pyGet ev "lng" else w
  else v

/-- Timestamp alias fields, in probe order (src/main.py:254). -/
def tsFields : List String := ["fromdate", "eventdate", "publisheddate", "date", "fromDate", "eventDate"]

/-- Timestamp probe (src/main.py:253-270): first truthy field whose value
parses wins; a string parses via ISO-8601, a finite number via the epoch
rules (greater than 1e10 means milliseconds); a parse failure falls through
to the next field; a truthy value of another shape stops the probe with no
timestamp.  No timestamp found means the current ingestion instant `now`. -/
def probeTs (L : Lib) (now : ℚ) (ev : Record) : List String → ℚ
  | [] => now
  | f :: fs =>
    let v := pyGet ev f
    if pyTruthy v then
      match v with
      | .str s =>
        match L.parseIso s with
        | some t => t
        | none => probeTs L now ev fs
      | .num (.fin q) => if q > 10 ^ 10 then q / 1000 else q
      | .num _ => probeTs L now ev fs
      | _ => now
    else probeTs L now ev fs

/-- Normalization of one upstream record: the body of the `for ev in data`
loop of `fetch_gdacs_events` (src/main.py:232-278).  `.ok none` is the
`continue` (record skipped), `.error ()` is an exception escaping the loop
(the code calls `.lower()` on the probed type value, which raises when that
value is truthy but not a string). -/
def normalizeOne (L : Lib) (now : ℚ) (ev : Record) : Except Unit (Option Event) :=
  let lat := probeLat ev
  let lon := probeLon ev
  if lat = .null ∨ lon = .null then .ok none
  else
    match pyToFloat L lat, pyToFloat L lon with
    | some latF, some lonF =>
      let dtype := pyOr (pyGet ev "eventtype")
        (pyOr (pyGet ev "title") (pyOr (pyGet ev "eventType") (.str "Disaster")))
      match dtype with
      | .str s =>
        let ts := probeTs L now ev tsFields
        let idv := pyStr (pyOr (pyGet ev "eventid")
          (pyOr (pyGet ev "id") (pyGetD ev "eventId" (.str ""))))
        let sev := pyOr (pyGet ev "alertlevel") (pyOr (pyGet ev "alertLevel") (.str "unknown"))
        .ok (some ⟨idv, map_gdacs_type s, latF, lonF, sev, ts⟩)
      | _ => .error ()
    | _, _ => .ok none

/-- Normalize a list of records in order; a raising record aborts the whole
fetch (the per-record exceptions are not caught in the loop). -/
def normList (L : Lib) (now : ℚ) : List Record → Except Unit (List Event)
  | [] => .ok []
  | r :: rs => do
    let h ← normalizeOne L now r
    let t ← normList L now rs
    match h with
    | some e => .ok (e :: t)
    | none => .ok t

/-- The observable outcome of one upstream HTTP GET: the request layer failed
(`requests` raised, caught by the fetcher), the body was of a shape that makes
the fetch loop itself raise, or a list of records was obtained. -/
inductive Upstream where
  | netFail
  | raises
  | ok (records : List Record)

/-- `fetch_gdacs_events` (src/main.py:217-280): a request-layer failure is
caught and yields `[]`; otherwise the records are normalized (exceptions in
the loop escape). -/
def fetch_gdacs_events (L : Lib) (now : ℚ) : Upstream → Except Unit (List Event)
  | .netFail => .ok []
  | .raises => .error ()
  | .ok rs => normList L now rs

/-- `fetch_disaster_data` (src/main.py:283-284). -/
def fetch_disaster_data (L : Lib) (now : ℚ) (u : Upstream) : Except Unit (List Event) :=
  fetch_gdacs_events L now u

/-- Normalize-and-filter for the resync fetch: same loop body, but an event is
appended only when its timestamp is at or after `since`
(src/main.py:193-212). -/
def normListSince (L : Lib) (now since : ℚ) : List Record → Except Unit (List Event)
  | [] => .ok []
  | r :: rs => do
    let h ← normalizeOne L now r
    let t ← normListSince L now since rs
    match h with
    | some e => if since ≤ e.timestamp then .ok (e :: t) else .ok t
    | none => .ok t

/-- `fetch_recent_gdacs_events` (src/main.py:139-214). -/
def fetch_recent_gdacs_events (L : Lib) (now since : ℚ) : Upstream → Except Unit (List Event)
  | .netFail => .ok []
  | .raises => .error ()
  | .ok rs => normListSince L now since rs

/-- The cache state (src/main.py:23-27). -/
structure Cache where
  last_update : Option ℚ
  events : List Event
  consecutive_failures : ℕ
deriving DecidableEq

/-- The environment of one fetch tick: the current instant, and what the two
possible upstream GETs would observe. -/
structure Tick where
  now : ℚ
  snapshot : Upstream
  resync : Upstream

/-- `safe_update_events` (src/main.py:287-318).  The second component counts
how many resync fetches (`fetch_recent_gdacs_events` calls) the tick issued. -/
def safe_update_events (L : Lib) (t : Tick) (c : Cache) : Cache × ℕ :=
  match fetch_disaster_data L t.now t.snapshot with
  | .error _ => ({ c with consecutive_failures := c.consecutive_failures + 1 }, 0)
  | .ok events =>
    if c.consecutive_failures > 1 then
      match fetch_recent_gdacs_events L t.now (t.now - 86400) t.resync with
      | .error _ => ({ c with consecutive_failures := c.consecutive_failures + 1 }, 1)
      | .ok recents =>
        let existing := c.events.map Event.id
        let merged := events ++ recents.filter (fun e => !(existing.contains e.id))
        (⟨some t.now, merged, 0⟩, 1)
    else (⟨some t.now, events, 0⟩, 0)

/-- `RISK_RADIUS.get(disaster_type, 50)` (src/main.py:29-35, 351): the fixed
per-type base radius table with default 50. -/
def RISK_RADIUS (disaster_type : String) : ℚ :=
  if disaster_type = "Hurricane" then 100
  else if disaster_type = "Flood" then 50
  else if disaster_type = "Wildfire" then 75
  else if disaster_type = "Tornado" then 25
  else if disaster_type = "Earthquake" then 60
  else 50

/-- `categorize_risk` (src/main.py:350-358).  Distances are modelled as exact
rationals; the code's `0.5` and `1.5` multipliers are exact. -/
def categorize_risk (user_dist : ℚ) (disaster_type : String) : Option String :=
  let base_radius := RISK_RADIUS disaster_type
  if user_dist ≤ (1 / 2) * base_radius then some "High"
  else if user_dist ≤ base_radius then some "Moderate"
  else if user_dist ≤ (3 / 2) * base_radius then some "Low"
  else none

/-- Python `int(q)` on a rational: truncation toward zero. -/
def pyTrunc (q : ℚ) : ℤ :=
  if q < 0 then ⌈q⌉ else ⌊q⌋

/-- `classify_alert_level` (src/main.py:371-399): the argument is the raw
timestamp value from the event record; non-strings and unparseable strings
map to ("Emergency", "Unknown time"). -/
def classify_alert_level (L : Lib) (now : ℚ) (event_timestamp : PyVal) : String × String :=
  match event_timestamp with
  | .str s =>
    match L.parseIso s with
    | none => ("Emergency", "Unknown time")
    | some t =>
      let hours_until := (t - now) / 3600
      if hours_until > 72 then
        ("Reminder", toString (pyTrunc (hours_until / 24)) ++ " days away")
      else if hours_until > 24 then
        ("Warning", toString (pyTrunc (hours_until / 24)) ++ " days away")
      else if hours_until < 0 then ("Emergency", "Past event")
      else ("Emergency", "Within " ++ toString (pyTrunc hours_until) ++ "h")
  | _ => ("Emergency", "Unknown time")

/-- A stored last-alert value: an ISO string that parses to the instant `t`,
or a string that `fromisoformat` rejects. -/
inductive TsRec where
  | valid (t : ℚ)
  | bad
deriving DecidableEq

/-- The `LAST_ALERT` store (src/main.py:22): user id to stored timestamp. -/
def LastAlertStore := List (String × TsRec)

/-- Lookup in the last-alert store; `none` covers a missing (or falsy) entry,
which the code treats identically. -/
def lookupStore : LastAlertStore → String → Option TsRec
  | [], _ => none
  | (k, v) :: t, uid => if k = uid then some v else lookupStore t uid

/-- Write-through update of the last-alert store. -/
def setStore : LastAlertStore → String → TsRec → LastAlertStore
  | [], uid, v => [(uid, v)]
  | (k, w) :: t, uid, v => if k = uid then (uid, v) :: t else (k, w) :: setStore t uid v

/-- `should_send_alert` (src/main.py:402-424): returns the decision and the
updated store.  `min_hours` is the cooldown in hours (source default 6). -/
def should_send_alert (store : LastAlertStore) (user_id : String) (min_hours now : ℚ) :
    Bool × LastAlertStore :=
  match lookupStore store user_id with
  | none => (true, setStore store user_id (.valid now))
  | some .bad => (true, setStore store user_id (.valid now))
  | some (.valid last) =>
    if now - last > min_hours * 3600 then (true, setStore store user_id (.valid now))
    else (false, store)

/-- `get_alerts` (src/main.py:556-562): the handler for GET /alerts.  The
first component is the response (`ALERTS[-limit:]` after the guards), the
second the alert log after the call (the handler never mutates it). -/
def get_alerts {α : Type} (alerts : List α) (limit : ℤ) : List α × List α :=
  if limit ≤ 0 then ([], alerts)
  else
    let l : ℤ := if limit > 1000 then 1000 else limit
    (alerts.drop (alerts.length - l.toNat), alerts)

/-! ### Concrete instances used by witnesses and counterexamples -/

/-- A concrete library instantiation: the string float parser and the ISO
parser both reject every string.  (No witness below feeds a string where the
parse outcome matters; coordinates and witness timestamps are numeric.) -/
def L0 : Lib := ⟨fun _ => none, fun _ => none⟩

/-- A concrete library whose ISO parser maps every string to epoch 360000. -/
def L1 : Lib := ⟨fun _ => none, fun _ => some 360000⟩

/-- Record with the given id and numeric coordinates (1, 2). -/
def recI (i : String) : Record :=
  [("id", .str i), ("latitude", .num (.fin 1)), ("longitude", .num (.fin 2))]

/-- Record with no id field (normalizes to the empty-string id). -/
def recNoId : Record := [("latitude", .num (.fin 3)), ("longitude", .num (.fin 4))]

/-- The event `recI i` normalizes to at ingestion instant `ts`. -/
def evI (i : String) (ts : ℚ) : Event := ⟨i, "Disaster", .fin 1, .fin 2, .str "unknown", ts⟩

/-- The event `recNoId` normalizes to at ingestion instant `ts`: its id is "". -/
def evNoId (ts : ℚ) : Event := ⟨"", "Disaster", .fin 3, .fin 4, .str "unknown", ts⟩

/-- Record whose latitude is the float value `inf` (the standard-library JSON
decoder produces it for a bare `Infinity` literal) and whose longitude is 0. -/
def recInf : Record := [("latitude", .num .inf), ("longitude", .num (.fin 0)), ("eventtype", .str "Flood")]


/-! ### Helper lemmas -/

lemma RISK_RADIUS_pos (ty : String) : 0 < RISK_RADIUS ty := by
  unfold RISK_RADIUS
  split_ifs <;> norm_num

/-- Severity rank of a risk result, for stating monotonicity: more severe
tiers rank higher, no tier ranks 0. -/
def riskRank (r : Option String) : ℕ :=
  if r = some "High" then 3
  else if r = some "Moderate" then 2
  else if r = some "Low" then 1
  else 0

/-- Whether a `float()` outcome is a finite real number. -/
def isFiniteParse : Option PyFloat → Bool
  | some (.fin _) => true
  | _ => false

/-- On a tick whose counter exceeds 1 and whose two fetches both return
normally, `safe_update_events` stores the snapshot followed by the resync
events whose id is not among the ids of the PREVIOUSLY cached events, resets
the counter, stamps `last_update`, and issues exactly one resync fetch. -/
lemma safe_update_recovery_merge (L : Lib) (t : Tick) (c : Cache) (evs revs : List Event)
    (hc : 1 < c.consecutive_failures)
    (hs : fetch_disaster_data L t.now t.snapshot = .ok evs)
    (hr : fetch_recent_gdacs_events L t.now (t.now - 86400) t.resync = .ok revs) :
    safe_update_events L t c
      = (⟨some t.now, evs ++ revs.filter (fun e => !((c.events.map Event.id).contains e.id)), 0⟩,
          1) := by
  simp only [safe_update_events, hs, hr]
  rw [if_pos hc]

lemma lookupStore_set_self (s : LastAlertStore) (uid : String) (v : TsRec) :
    lookupStore (setStore s uid v) uid = some v := by
  induction s with
  | nil => simp [setStore, lookupStore]
  | cons p t ih =>
    obtain ⟨k, w⟩ := p
    by_cases h : k = uid
    · simp [setStore, lookupStore, h]
    · simp [setStore, lookupStore, h, ih]

/-! ### Claims -/

/-- C1: observed code behavior at the failing input.  With one cached event
and a zero failure counter, a tick whose upstream HTTP fetch fails
(`requests` raises inside `fetch_gdacs_events`, which catches it and returns
an empty list) runs the SUCCESS path of `safe_update_events`: the cached
events are wiped to [] and the counter stays 0 — not incremented to 1 with
the events preserved as the claim states. -/
theorem c1_network_failure_behavior :
    safe_update_events L0 ⟨100, .netFail, .netFail⟩ ⟨some 0, [evI "a" 0], 0⟩
      = (⟨some 100, [], 0⟩, 0)
    ∧ safe_update_events L0 ⟨100, .netFail, .netFail⟩ ⟨some 0, [evI "a" 0], 0⟩
      ≠ (⟨some 0, [evI "a" 0], 1⟩, 0) := by
  constructor
  · rfl
  · decide

/-- C2 counterexample: cached events have id "a", the snapshot fetch returns
the event with id "d", and the resync fetch returns events with ids "d" and
"c".  The claim predicts the resync "d" is filtered out against the
just-fetched snapshot, yielding [d, c]; the code dedups against the OLD
cache ids {"a"} only and stores [d, d, c] — a duplicate of "d". -/
theorem c2_resync_dedup_counterexample :
    (safe_update_events L0 ⟨86400, .ok [recI "d"], .ok [recI "d", recI "c"]⟩
        ⟨none, [evI "a" 0], 2⟩).1.events
      = [evI "d" 86400, evI "d" 86400, evI "c" 86400]
    ∧ ([evI "d" 86400, evI "d" 86400, evI "c" 86400]
        ≠ [evI "d" 86400, evI "c" 86400]) := by
  have hr : fetch_recent_gdacs_events L0 (86400 : ℚ) ((86400 : ℚ) - 86400)
      (.ok [recI "d", recI "c"]) = .ok [evI "d" 86400, evI "c" 86400] := by
    have h0 : ((86400 : ℚ) - 86400) = 0 := by norm_num
    rw [h0]
    rfl
  have h := safe_update_recovery_merge L0 ⟨86400, .ok [recI "d"], .ok [recI "d", recI "c"]⟩
    ⟨none, [evI "a" 0], 2⟩ [evI "d" 86400] [evI "d" 86400, evI "c" 86400]
    (by norm_num) rfl hr
  rw [h]
  exact ⟨rfl, by decide⟩

/-- C2 amended: on the first successful fetch with `consecutive_failures > 1`,
exactly one additional 24h-scoped resync fetch is performed, and every
resync event whose id already occurs among the PREVIOUSLY cached events (the
pre-replacement cache, not the just-fetched snapshot) is filtered out before
the remainder is appended to the new snapshot; the counter resets to 0. -/
theorem c2_resync_merge (L : Lib) (t : Tick) (c : Cache) (evs revs : List Event)
    (hc : 1 < c.consecutive_failures)
    (hs : fetch_disaster_data L t.now t.snapshot = .ok evs)
    (hr : fetch_recent_gdacs_events L t.now (t.now - 86400) t.resync = .ok revs) :
    safe_update_events L t c
      = (⟨some t.now, evs ++ revs.filter (fun e => !((c.events.map Event.id).contains e.id)), 0⟩,
          1) :=
  safe_update_recovery_merge L t c evs revs hc hs hr

/-- Witness for C2 on the spec's own example: cache {a, b}, snapshot {a, b},
resync {a, c}; the post-resync event list is exactly [a, b, c] with no
duplicate of "a", and exactly one resync fetch happened. -/
theorem c2_resync_merge_witness :
    safe_update_events L0 ⟨86400, .ok [recI "a", recI "b"], .ok [recI "a", recI "c"]⟩
        ⟨none, [evI "a" 0, evI "b" 0], 2⟩
      = (⟨some 86400, [evI "a" 86400, evI "b" 86400, evI "c" 86400], 0⟩, 1) := by
  have hr : fetch_recent_gdacs_events L0 (86400 : ℚ) ((86400 : ℚ) - 86400)
      (.ok [recI "a", recI "c"]) = .ok [evI "a" 86400, evI "c" 86400] := by
    have h0 : ((86400 : ℚ) - 86400) = 0 := by norm_num
    rw [h0]
    rfl
  have h := c2_resync_merge L0 ⟨86400, .ok [recI "a", recI "b"], .ok [recI "a", recI "c"]⟩
    ⟨none, [evI "a" 0, evI "b" 0], 2⟩ [evI "a" 86400, evI "b" 86400]
    [evI "a" 86400, evI "c" 86400] (by norm_num) rfl hr
  rw [h]
  rfl

/-- C6 counterexample: a record whose latitude is the non-finite float `inf`
(not parseable as a FINITE real number) is not rejected: normalization
yields an event, contradicting the claim that such records yield no event. -/
theorem c6_rejection_counterexample :
    normalizeOne L0 0 recInf = .ok (some ⟨"", "Flood", .inf, .fin 0, .str "unknown", 0⟩)
    ∧ isFiniteParse (pyToFloat L0 (probeLat recInf)) = false :=
  ⟨rfl, rfl⟩

/-- C6 amended: normalization skips a record (yields no event) exactly when
Python `float()` fails on the probed latitude or on the probed longitude —
missing aliases and null values fail, but values parsing to non-finite
floats (inf, NaN) are accepted, not rejected; in particular a missing or
unparseable timestamp never causes rejection. -/
theorem c6_rejection_iff (L : Lib) (now : ℚ) (r : Record) :
    normalizeOne L now r = .ok none
      ↔ (pyToFloat L (probeLat r) = none ∨ pyToFloat L (probeLon r) = none) := by
  simp only [normalizeOne]
  split_ifs with h
  · rcases h with h | h <;> rw [h] <;> simp [pyToFloat]
  · push_neg at h
    obtain ⟨hl, hn⟩ := h
    cases hfa : pyToFloat L (probeLat r) with
    | none => simp
    | some a =>
      cases hfb : pyToFloat L (probeLon r) with
      | none => simp
      | some b =>
        simp only [reduceCtorEq, or_self, iff_false]
        cases hdt : pyOr (pyGet r "eventtype")
            (pyOr (pyGet r "title") (pyOr (pyGet r "eventType") (.str "Disaster"))) <;>
          simp [hdt]

/-- Witness for C6: a record with no latitude alias at all is rejected (the
backward direction of the iff applied at a concrete record). -/
theorem c6_rejection_iff_witness :
    normalizeOne L0 0 ([("longitude", .num (.fin 0))] : Record) = .ok none :=
  (c6_rejection_iff L0 0 ([("longitude", .num (.fin 0))] : Record)).mpr (Or.inl rfl)

/-- C7 counterexample: the cache already holds an event with id "" and the
resync returns a candidate with id ""; the claim says every empty-string-id
candidate is appended regardless, but the code's id-set test drops it: the
stored events are [] (the empty snapshot), not [the candidate]. -/
theorem c7_empty_id_counterexample :
    (safe_update_events L0 ⟨86400, .ok [], .ok [recNoId]⟩ ⟨none, [evNoId 0], 2⟩).1.events = []
    ∧ (([] : List Event) ≠ [evNoId 86400]) := by
  have hr : fetch_recent_gdacs_events L0 (86400 : ℚ) ((86400 : ℚ) - 86400)
      (.ok [recNoId]) = .ok [evNoId 86400] := by
    have h0 : ((86400 : ℚ) - 86400) = 0 := by norm_num
    rw [h0]
    rfl
  have h := safe_update_recovery_merge L0 ⟨86400, .ok [], .ok [recNoId]⟩
    ⟨none, [evNoId 0], 2⟩ [] [evNoId 86400] (by norm_num) rfl hr
  rw [h]
  exact ⟨rfl, by decide⟩

/-- C7 amended: resync deduplication keys on the id string, the empty string
included: an empty-string-id resync candidate is appended exactly when no
previously cached event has an empty-string id; when none does, every such
candidate is appended (candidates are not deduplicated against each other). -/
theorem c7_empty_id_resync (L : Lib) (t : Tick) (c : Cache) (evs revs : List Event)
    (hc : 1 < c.consecutive_failures)
    (hs : fetch_disaster_data L t.now t.snapshot = .ok evs)
    (hr : fetch_recent_gdacs_events L t.now (t.now - 86400) t.resync = .ok revs)
    (hid : ((c.events.map Event.id).contains "") = false) :
    ∀ e ∈ revs, e.id = "" → e ∈ (safe_update_events L t c).1.events := by
  intro e he hide
  rw [safe_update_recovery_merge L t c evs revs hc hs hr]
  simp only [List.mem_append, List.mem_filter]
  refine Or.inr ⟨he, ?_⟩
  rw [hide, hid]
  rfl

/-- Witness for C7: with no empty-id event in the old cache, a resync that
returns two empty-id candidates has (in particular) its first candidate
appended to the stored events. -/
theorem c7_empty_id_resync_witness :
    evNoId 86400 ∈ (safe_update_events L0 ⟨86400, .ok [], .ok [recNoId, recNoId]⟩
      ⟨none, [evI "a" 0], 2⟩).1.events := by
  have hr : fetch_recent_gdacs_events L0 (86400 : ℚ) ((86400 : ℚ) - 86400)
      (.ok [recNoId, recNoId]) = .ok [evNoId 86400, evNoId 86400] := by
    have h0 : ((86400 : ℚ) - 86400) = 0 := by norm_num
    rw [h0]
    rfl
  exact c7_empty_id_resync L0 ⟨86400, .ok [], .ok [recNoId, recNoId]⟩ ⟨none, [evI "a" 0], 2⟩
    [] [evNoId 86400, evNoId 86400] (by norm_num) rfl hr (by decide) (evNoId 86400)
    (List.mem_cons_self _ _) rfl

/-- C4: `categorize_risk` uses the fixed base-radius table (Hurricane 100,
Flood 50, Wildfire 75, Tornado 25, Earthquake 60, default 50); for
non-negative distance `d`, `d ≤ 0.5R` gives High, `0.5R < d ≤ R` gives
Moderate, `R < d ≤ 1.5R` gives Low, `d > 1.5R` gives no tier (boundaries
belong to the more severe tier), and the tier is antitone in `d` for a fixed
type. -/
theorem c4_risk_tiers (d : ℚ) (ty : String) (hd : 0 ≤ d) :
    (RISK_RADIUS "Hurricane" = 100 ∧ RISK_RADIUS "Flood" = 50 ∧ RISK_RADIUS "Wildfire" = 75 ∧
      RISK_RADIUS "Tornado" = 25 ∧ RISK_RADIUS "Earthquake" = 60 ∧
      (ty ∉ (["Hurricane", "Flood", "Wildfire", "Tornado", "Earthquake"] : List String) →
        RISK_RADIUS ty = 50))
    ∧ (d ≤ RISK_RADIUS ty / 2 → categorize_risk d ty = some "High")
    ∧ (RISK_RADIUS ty / 2 < d → d ≤ RISK_RADIUS ty → categorize_risk d ty = some "Moderate")
    ∧ (RISK_RADIUS ty < d → d ≤ 3 * RISK_RADIUS ty / 2 → categorize_risk d ty = some "Low")
    ∧ (3 * RISK_RADIUS ty / 2 < d → categorize_risk d ty = none)
    ∧ (∀ d' : ℚ, d ≤ d' → riskRank (categorize_risk d' ty) ≤ riskRank (categorize_risk d ty)) := by
  refine ⟨⟨by decide, by decide, by decide, by decide, by decide, ?_⟩, ?_, ?_, ?_, ?_, ?_⟩
  · intro h
    unfold RISK_RADIUS
    split_ifs with h1 h2 h3 h4 h5 <;> simp_all
  · intro h
    simp only [categorize_risk]
    rw [if_pos (by linarith)]
  · intro h1 h2
    simp only [categorize_risk]
    rw [if_neg (by linarith), if_pos (by linarith)]
  · intro h1 h2
    simp only [categorize_risk]
    rw [if_neg (by linarith), if_neg (by linarith), if_pos (by linarith)]
  · intro h
    simp only [categorize_risk]
    rw [if_neg (by linarith), if_neg (by linarith), if_neg (by linarith)]
  · intro d' hdd'
    simp only [categorize_risk]
    split_ifs <;> simp [riskRank] <;> linarith

/-- Witness for C4 at distance 0 and type "Flood": the hypothesis `0 ≤ 0` is
discharged concretely and the High conjunct applies at the boundary. -/
theorem c4_risk_tiers_witness : categorize_risk 0 "Flood" = some "High" := by
  have h := c4_risk_tiers 0 "Flood" (by norm_num)
  have h50 : RISK_RADIUS "Flood" = 50 := by decide
  exact h.2.1 (by rw [h50]; norm_num)

/-- C5: the type mapper is deterministic, case-insensitive substring matching
in priority order fire/wildfire, storm/cyclone/hurricane/typhoon, flood,
volcano, earthquake; no match passes the raw string through; a title
containing "fire" maps to Wildfire regardless of other needles. -/
theorem c5_type_mapper (s : String) :
    ((strContains (strLower s) "fire" || strContains (strLower s) "wildfire") = true →
      map_gdacs_type s = "Wildfire")
  ∧ ((strContains (strLower s) "fire" || strContains (strLower s) "wildfire") = false →
      (strContains (strLower s) "storm" || strContains (strLower s) "cyclone" ||
        strContains (strLower s) "hurricane" || strContains (strLower s) "typhoon") = true →
      map_gdacs_type s = "Hurricane")
  ∧ ((strContains (strLower s) "fire" || strContains (strLower s) "wildfire") = false →
      (strContains (strLower s) "storm" || strContains (strLower s) "cyclone" ||
        strContains (strLower s) "hurricane" || strContains (strLower s) "typhoon") = false →
      strContains (strLower s) "flood" = true → map_gdacs_type s = "Flood")
  ∧ ((strContains (strLower s) "fire" || strContains (strLower s) "wildfire") = false →
      (strContains (strLower s) "storm" || strContains (strLower s) "cyclone" ||
        strContains (strLower s) "hurricane" || strContains (strLower s) "typhoon") = false →
      strContains (strLower s) "flood" = false →
      strContains (strLower s) "volcano" = true → map_gdacs_type s = "Volcano")
  ∧ ((strContains (strLower s) "fire" || strContains (strLower s) "wildfire") = false →
      (strContains (strLower s) "storm" || strContains (strLower s) "cyclone" ||
        strContains (strLower s) "hurricane" || strContains (strLower s) "typhoon") = false →
      strContains (strLower s) "flood" = false → strContains (strLower s) "volcano" = false →
      strContains (strLower s) "earthquake" = true → map_gdacs_type s = "Earthquake")
  ∧ ((strContains (strLower s) "fire" || strContains (strLower s) "wildfire") = false →
      (strContains (strLower s) "storm" || strContains (strLower s) "cyclone" ||
        strContains (strLower s) "hurricane" || strContains (strLower s) "typhoon") = false →
      strContains (strLower s) "flood" = false → strContains (strLower s) "volcano" = false →
      strContains (strLower s) "earthquake" = false → map_gdacs_type s = s) := by
  refine ⟨?_, ?_, ?_, ?_, ?_, ?_⟩ <;> intros <;> simp_all [map_gdacs_type]

/-- Witness for C5: "Fire and flood" contains both needles and maps to
Wildfire (fire is checked first). -/
theorem c5_type_mapper_witness : map_gdacs_type "Fire and flood" = "Wildfire" :=
  (c5_type_mapper "Fire and flood").1 (by decide)

/-- C10: GET /alerts returns [] when limit ≤ 0, behaves as limit = 1000 when
limit > 1000, and otherwise returns exactly the final segment of the alert
log of length min(limit, length), in stored order, leaving the log
unchanged. -/
theorem c10_get_alerts {α : Type} (alerts : List α) (limit : ℤ) :
    (limit ≤ 0 → get_alerts alerts limit = ([], alerts))
  ∧ (1000 < limit → get_alerts alerts limit = get_alerts alerts 1000)
  ∧ (0 < limit →
      alerts.take (alerts.length - (min limit 1000).toNat) ++ (get_alerts alerts limit).1 = alerts)
  ∧ (0 < limit → ((get_alerts alerts limit).1).length = min (min limit 1000).toNat alerts.length)
  ∧ (get_alerts alerts limit).2 = alerts := by
  refine ⟨?_, ?_, ?_, ?_, ?_⟩
  · intro h
    simp [get_alerts, h]
  · intro h
    have h0 : ¬ limit ≤ 0 := by omega
    have h1 : ¬ (1000 : ℤ) ≤ 0 := by omega
    simp only [get_alerts, h0, if_false, if_neg h0, if_neg h1]
    rw [if_pos h, if_neg (by omega : ¬ (1000 : ℤ) > 1000)]
  · intro h
    have hmin : min limit 1000 = if limit > 1000 then 1000 else limit := by
      split_ifs <;> omega
    simp only [get_alerts, if_neg (by omega : ¬ limit ≤ 0), hmin]
    exact List.take_append_drop _ _
  · intro h
    have hmin : min limit 1000 = if limit > 1000 then 1000 else limit := by
      split_ifs <;> omega
    simp only [get_alerts, if_neg (by omega : ¬ limit ≤ 0), hmin]
    rw [List.length_drop]
    omega
  · unfold get_alerts
    split_ifs <;> rfl

/-- C3: the throttle returns true and seeds now when there is no stored (or a
malformed) record; with a valid stored instant it returns true iff strictly
more than `min_hours` hours elapsed, advancing the stored instant exactly on
true; two calls 5h59m apart yield (true, false) and 6h01m apart yield
(true, true) at the 6h default. -/
theorem c3_throttle (store : LastAlertStore) (uid : String) (mh now t : ℚ) :
    (lookupStore store uid = none →
      should_send_alert store uid mh now = (true, setStore store uid (.valid now)))
  ∧ (lookupStore store uid = some .bad →
      should_send_alert store uid mh now = (true, setStore store uid (.valid now)))
  ∧ (lookupStore store uid = some (.valid t) →
      should_send_alert store uid mh now
        = if mh * 3600 < now - t then (true, setStore store uid (.valid now)) else (false, store))
  ∧ (lookupStore store uid = none →
      (should_send_alert store uid 6 now).1 = true
      ∧ (should_send_alert (should_send_alert store uid 6 now).2 uid 6 (now + 21540)).1 = false
      ∧ (should_send_alert (should_send_alert store uid 6 now).2 uid 6 (now + 21660)).1 = true) := by
  refine ⟨?_, ?_, ?_, ?_⟩
  · intro h
    simp [should_send_alert, h]
  · intro h
    simp [should_send_alert, h]
  · intro h
    simp only [should_send_alert, h]
  · intro h
    refine ⟨by simp [should_send_alert, h], ?_, ?_⟩
    · simp only [should_send_alert, h, lookupStore_set_self]
      rw [if_neg (by norm_num)]
    · simp only [should_send_alert, h, lookupStore_set_self]
      rw [if_pos (by norm_num)]

/-- Witness for C3 at the empty store: the first call returns true, and the
two follow-up calls spaced 5h59m and 6h01m later return false and true. -/
theorem c3_throttle_witness :
    (should_send_alert [] "u" 6 0).1 = true
    ∧ (should_send_alert (should_send_alert [] "u" 6 0).2 "u" 6 (0 + 21540)).1 = false
    ∧ (should_send_alert (should_send_alert [] "u" 6 0).2 "u" 6 (0 + 21660)).1 = true :=
  (c3_throttle [] "u" 6 0 0).2.2.2 rfl

/-- C8: the urgency classifier returns ("Reminder", "N days away") strictly
above 72h, ("Warning", "N days away") in (24h, 72h], ("Emergency",
"Within Hh") in [0h, 24h], ("Emergency", "Past event") for past instants,
and ("Emergency", "Unknown time") for non-string or unparseable timestamps;
day and hour counts are floors of the (non-negative) hour count. -/
theorem c8_urgency (L : Lib) (now : ℚ) (s : String) (t : ℚ) (v : PyVal) :
    (L.parseIso s = some t →
      (72 < (t - now) / 3600 →
        classify_alert_level L now (.str s)
          = ("Reminder", toString ⌊(t - now) / 3600 / 24⌋ ++ " days away"))
      ∧ (24 < (t - now) / 3600 → (t - now) / 3600 ≤ 72 →
        classify_alert_level L now (.str s)
          = ("Warning", toString ⌊(t - now) / 3600 / 24⌋ ++ " days away"))
      ∧ (0 ≤ (t - now) / 3600 → (t - now) / 3600 ≤ 24 →
        classify_alert_level L now (.str s)
          = ("Emergency", "Within " ++ toString ⌊(t - now) / 3600⌋ ++ "h"))
      ∧ ((t - now) / 3600 < 0 →
        classify_alert_level L now (.str s) = ("Emergency", "Past event")))
  ∧ (L.parseIso s = none →
      classify_alert_level L now (.str s) = ("Emergency", "Unknown time"))
  ∧ ((∀ u : String, v ≠ .str u) →
      classify_alert_level L now v = ("Emergency", "Unknown time")) := by
  refine ⟨?_, ?_, ?_⟩
  · intro hp
    refine ⟨?_, ?_, ?_, ?_⟩
    · intro h
      simp only [classify_alert_level, hp]
      rw [if_pos h]
      unfold pyTrunc
      rw [if_neg (by intro hlt; nlinarith)]
    · intro h1 h2
      simp only [classify_alert_level, hp]
      rw [if_neg (by linarith), if_pos h1]
      unfold pyTrunc
      rw [if_neg (by intro hlt; nlinarith)]
    · intro h1 h2
      simp only [classify_alert_level, hp]
      rw [if_neg (by linarith), if_neg (by linarith), if_neg (by linarith)]
      unfold pyTrunc
      rw [if_neg (by linarith)]
    · intro h
      simp only [classify_alert_level, hp]
      rw [if_neg (by linarith), if_neg (by linarith), if_pos h]
  · intro hp
    simp [classify_alert_level, hp]
  · intro hv
    cases v with
    | str u => exact absurd rfl (hv u)
    | null => rfl
    | num x => rfl
    | other => rfl

/-- Witness for C8: with an ISO parser sending every string to epoch 360000
(100h ahead of now = 0), the Reminder branch applies and the day count
floors to 4. -/
theorem c8_urgency_witness : classify_alert_level L1 0 (.str "x") = ("Reminder", "4 days away") := by
  have h := ((c8_urgency L1 0 "x" 360000 .null).1 rfl).1 (by norm_num)
  rw [h]
  norm_num
  rfl

/-- C9: when every type alias (`eventtype`, `title`, `eventType`) is absent
or falsy, the normalizer substitutes "Disaster", the mapper passes it
through, and the record (with parseable coordinates) is not rejected: it
yields an event of type "Disaster". -/
theorem c9_default_type (L : Lib) (now : ℚ) (r : Record) (latF lonF : PyFloat)
    (h1 : pyTruthy (pyGet r "eventtype") = false)
    (h2 : pyTruthy (pyGet r "title") = false)
    (h3 : pyTruthy (pyGet r "eventType") = false)
    (hla : pyToFloat L (probeLat r) = some latF)
    (hlo : pyToFloat L (probeLon r) = some lonF) :
    ∃ e : Event, normalizeOne L now r = .ok (some e) ∧ e.type = "Disaster" := by
  have hl : probeLat r ≠ .null := by
    intro h
    rw [h] at hla
    simp [pyToFloat] at hla
  have hn : probeLon r ≠ .null := by
    intro h
    rw [h] at hlo
    simp [pyToFloat] at hlo
  refine ⟨⟨pyStr (pyOr (pyGet r "eventid") (pyOr (pyGet r "id") (pyGetD r "eventId" (.str "")))),
    map_gdacs_type "Disaster", latF, lonF,
    pyOr (pyGet r "alertlevel") (pyOr (pyGet r "alertLevel") (.str "unknown")),
    probeTs L now r tsFields⟩, ?_, by rfl⟩
  simp only [normalizeOne, hla, hlo]
  rw [if_neg (by tauto)]
  simp [pyOr, h1, h2, h3]

/-- Witness for C9: a record with numeric coordinates and no type aliases at
all normalizes to an event of type "Disaster". -/
theorem c9_default_type_witness :
    ∃ e : Event, normalizeOne L0 0 recNoId = .ok (some e) ∧ e.type = "Disaster" :=
  c9_default_type L0 0 recNoId (.fin 3) (.fin 4) rfl rfl rfl rfl rfl

/-- Witness for C10 at the log [0, 1, 2] and limit 2: the positivity
hypothesis is discharged concretely. -/
theorem c10_get_alerts_witness :
    ([0, 1, 2] : List ℕ).take (([0, 1, 2] : List ℕ).length - (min (2 : ℤ) 1000).toNat)
      ++ (get_alerts ([0, 1, 2] : List ℕ) 2).1 = [0, 1, 2] :=
  (c10_get_alerts ([0, 1, 2] : List ℕ) 2).2.2.1 (by norm_num)

end Sentinel
